import Mathlib

/-!
Verification of the message-routing orchestrator of the
`hackaithon-2025-masumi-ton-agents` repository, as a shallow embedding in
Lean 4.  Strings are modelled as `List Char`; Python `str.lower` is
modelled on the ASCII range (all keyword tables and trigger phrases in the
source are ASCII); Python `in` on strings is substring containment;
wall-clock timestamps are passed explicitly as a `DateTime` value holding
the fields `strftime` can read.  Fields of returned dicts that no claim
observes (ISO-format wall-clock timestamps of results) are omitted from
the result records.  External LLM agents are opaque oracles
`Str → Str` (or `Str → Except Str Str` where the source wraps the call in
`try`/`except`).
-/

/-- Strings as lists of characters. -/
abbrev Str := List Char

/-- Coerce a Lean string literal to the `List Char` model. -/
def str (s : String) : Str := s.data

/-- ASCII model of Python `str.lower` on one character. -/
def pyLower (c : Char) : Char :=
  if 'A' ≤ c ∧ c ≤ 'Z' then Char.ofNat (c.toNat + 32) else c

/-- Python `text.lower()`. -/
def pyLowerStr (t : Str) : Str := t.map pyLower

/-- Python `kw in t` (substring containment). -/
def pyIn (kw t : Str) : Bool := decide (kw <:+: t)

/-- `any(keyword in text for keyword in kws)` from `_route_message`. -/
def keywordMatch (kws : List Str) (t : Str) : Bool := kws.any (fun kw => pyIn kw t)

/-- One inline-keyboard button (`{"text": ..., "callback_data": ...}`). -/
structure InlineButton where
  text : Str
  callback_data : Str
deriving DecidableEq

/-- A `reply_markup` payload (`{"inline_keyboard": [...]}`). -/
structure ReplyMarkup where
  inline_keyboard : List (List InlineButton)
deriving DecidableEq

/-- The routing-decision dict returned by `TelegramOrchestrator._route_message`. -/
structure RouteDecision where
  requires_reply : Bool
  reply_text : Str
  suggested_workflow : Str
  reply_markup : Option ReplyMarkup
deriving DecidableEq

/-- `masumi_keywords` table (orchestrator.py line 114). -/
def masumiKeywords : List Str :=
  [str "masumi", str "hire agent", str "find agent", str "agent network", str "blockchain agent"]

/-- `finance_keywords` table (orchestrator.py line 117). -/
def financeKeywords : List Str :=
  [str "stock", str "price", str "financial", str "market", str "trading", str "investment"]

/-- `web_keywords` table (orchestrator.py line 120). -/
def webKeywords : List Str :=
  [str "search", str "find information", str "lookup", str "google", str "web"]

/-- `help_keywords` table (orchestrator.py line 123). -/
def helpKeywords : List Str :=
  [str "help", str "start", str "hello", str "hi", str "what can you do"]

/-- The fallback-branch reply text of `_route_message` (the f-string at line 171). -/
def fallbackEcho (t : Str) : Str :=
  str "I received your message: \"" ++ t ++
  str "\"\n\nI can help you with various tasks. Type \"help\" to see what I can do!"

/-- `TelegramOrchestrator._route_message` (orchestrator.py lines 103-173).
The argument is the already-lowercased message text, as in the caller. -/
def routeMessage (text : Str) : RouteDecision :=
  if keywordMatch masumiKeywords text then
    { requires_reply := true
      reply_text := str "🌐 I can help you navigate the Masumi Network! I can:\n\n• Find available AI agents\n• Help you hire agents for tasks\n• Monitor job progress\n• Manage payments\n\nWhat would you like to do?"
      suggested_workflow := str "masumi_network"
      reply_markup := some ⟨[[⟨str "🔍 Find Agents", str "masumi_list"⟩],
                             [⟨str "💼 Hire Agent", str "masumi_hire"⟩],
                             [⟨str "📊 Check Jobs", str "masumi_status"⟩]]⟩ }
  else if keywordMatch financeKeywords text then
    { requires_reply := true
      reply_text := str "📈 I can help with financial information! I can:\n\n• Get stock prices\n• Market analysis\n• Financial news\n• Investment data\n\nWhat financial information do you need?"
      suggested_workflow := str "finance_agent"
      reply_markup := none }
  else if keywordMatch webKeywords text then
    { requires_reply := true
      reply_text := str "🔍 I can search the web for you! I can:\n\n• Find current information\n• Research topics\n• Get latest news\n• Look up facts\n\nWhat would you like me to search for?"
      suggested_workflow := str "web_agent"
      reply_markup := none }
  else if keywordMatch helpKeywords text then
    { requires_reply := true
      reply_text := str "👋 Hello! I\x27m your AI Agent Orchestrator. I can help you with:\n\n🌐 **Masumi Network** - Find and hire AI agents\n📈 **Finance** - Stock prices and market data\n🔍 **Web Search** - Find information online\n📱 **Telegram** - Advanced bot operations\n\nJust tell me what you need!"
      suggested_workflow := str "help"
      reply_markup := some ⟨[[⟨str "🌐 Masumi Network", str "help_masumi"⟩],
                             [⟨str "📈 Finance", str "help_finance"⟩],
                             [⟨str "🔍 Web Search", str "help_web"⟩],
                             [⟨str "📱 Telegram Bot", str "help_telegram"⟩]]⟩ }
  else
    { requires_reply := true
      reply_text := fallbackEcho text
      suggested_workflow := str "general_response"
      reply_markup := none }

/-- The classification pipeline as the spec describes it: the caller
(`handle_telegram_update`, line 75) lower-cases the text, then routes. -/
def classify (text : Str) : RouteDecision := routeMessage (pyLowerStr text)

/- ### Router lemmas -/

theorem keywordMatch_eq_true_of_mem {kws : List Str} {t kw : Str}
    (hkw : kw ∈ kws) (hin : kw <:+: t) : keywordMatch kws t = true := by
  simp only [keywordMatch, List.any_eq_true]
  exact ⟨kw, hkw, by simp [pyIn, hin]⟩

/-- Python's default whitespace characters (those `str.strip` removes and
that occur in chat text). -/
def pyWs : List Char := [' ', '\t', '\n', '\r', '\x0b', '\x0c']

/-- Whitespace test. -/
def isPyWs (c : Char) : Bool := decide (c ∈ pyWs)

theorem pyLower_ws {c : Char} (h : isPyWs c = true) : pyLower c = c := by
  simp only [isPyWs, pyWs, decide_eq_true_eq, List.mem_cons,
    List.mem_singleton, List.not_mem_nil, or_false] at h
  rcases h with rfl | rfl | rfl | rfl | rfl | rfl <;> decide

theorem keywordMatch_eq_false_of_ws {kws : List Str} {t : Str}
    (hk : ∀ kw ∈ kws, ∃ c ∈ kw, isPyWs c = false)
    (ht : ∀ c ∈ t, isPyWs c = true) : keywordMatch kws t = false := by
  simp only [keywordMatch, List.any_eq_false]
  intro kw hkw
  obtain ⟨c, hc, hcw⟩ := hk kw hkw
  simp only [pyIn, decide_eq_true_eq, decide_eq_false_iff_not]
  intro hinf
  have : isPyWs c = true := ht c (hinf.sublist.subset hc)
  rw [this] at hcw
  exact absurd hcw (by decide)

/- ### Claim theorems about the router -/

/-- C2: any input containing a marketplace keyword (after lower-casing) is
classified to the marketplace category (`masumi_network`), whatever its
letter case and whatever finance or web keywords also occur, because the
marketplace set is tested first. -/
theorem marketplace_keyword_wins (text kw : Str)
    (hkw : kw ∈ masumiKeywords) (hin : kw <:+: pyLowerStr text) :
    (classify text).suggested_workflow = str "masumi_network" ∧
    (classify text).requires_reply = true := by
  have h := keywordMatch_eq_true_of_mem hkw hin
  constructor <;> simp [classify, routeMessage, h]

theorem marketplace_keyword_wins_witness :
    (classify (str "Masumi stock price")).suggested_workflow = str "masumi_network" :=
  (marketplace_keyword_wins (str "Masumi stock price") (str "masumi")
    (by decide) (by decide)).1

/-- C9 counterexample: on the pure-whitespace input `" "` the router does
fall through to the fallback category, but the fallback reply echoes the
whitespace verbatim — not the trimmed empty text the claim states. -/
theorem fallback_echo_not_trimmed :
    (classify (str " ")).suggested_workflow = str "general_response" ∧
    (classify (str " ")).reply_text = fallbackEcho (str " ") ∧
    (classify (str " ")).reply_text ≠ fallbackEcho [] := by
  refine ⟨by decide, by decide, by decide⟩

/-- C9 (amended): empty or whitespace-only input falls through to the
fallback category, and the fallback reply echoes the lower-cased input
verbatim (untrimmed); for the empty string that echo is the empty text. -/
theorem whitespace_falls_to_fallback (text : Str)
    (h : ∀ c ∈ text, isPyWs c = true) :
    (classify text).suggested_workflow = str "general_response" ∧
    (classify text).reply_text = fallbackEcho (pyLowerStr text) := by
  have hlow : ∀ c ∈ pyLowerStr text, isPyWs c = true := by
    intro c hc
    simp only [pyLowerStr, List.mem_map] at hc
    obtain ⟨d, hd, rfl⟩ := hc
    rw [pyLower_ws (h d hd)]
    exact h d hd
  have h1 : keywordMatch masumiKeywords (pyLowerStr text) = false :=
    keywordMatch_eq_false_of_ws (by decide) hlow
  have h2 : keywordMatch financeKeywords (pyLowerStr text) = false :=
    keywordMatch_eq_false_of_ws (by decide) hlow
  have h3 : keywordMatch webKeywords (pyLowerStr text) = false :=
    keywordMatch_eq_false_of_ws (by decide) hlow
  have h4 : keywordMatch helpKeywords (pyLowerStr text) = false :=
    keywordMatch_eq_false_of_ws (by decide) hlow
  constructor <;> simp [classify, routeMessage, h1, h2, h3, h4]

theorem whitespace_falls_to_fallback_witness :
    (classify (str "  ")).suggested_workflow = str "general_response" ∧
    (classify (str "  ")).reply_text = fallbackEcho (pyLowerStr (str "  ")) :=
  whitespace_falls_to_fallback (str "  ") (by decide)

/- ### Chat-Session Gateway (`SimpleTelegramAgent`, simple_telegram_agent.py) -/

/-- `MessageContext` dataclass (simple_telegram_agent.py lines 18-24). -/
structure MessageContext where
  is_reply_to_incoming : Bool
  incoming_chat_id : Option Str
  admin_initiated : Bool
deriving DecidableEq

/-- The mutable per-agent state: `self.current_context` and
`self.interaction_mode` (lines 129-131). -/
structure AgentState where
  current_context : Option MessageContext
  interaction_mode : Str
deriving DecidableEq

/-- The state a fresh agent starts in and every send resets to
(`current_context = None`, `interaction_mode = "playground"`). -/
def initialAgentState : AgentState := ⟨none, str "playground"⟩

/-- A Telegram chat payload: `message["chat"]`, holding an optional id
(already rendered through Python `str`). -/
structure TgChat where
  id : Option Str
deriving DecidableEq

/-- `message["from"]`. -/
structure TgUser where
  id : Option Str
deriving DecidableEq

/-- `update["message"]`. -/
structure TgMessage where
  chat : Option TgChat
  fromUser : Option TgUser
  text : Option Str
deriving DecidableEq

/-- An inbound Telegram update payload. -/
structure TgUpdate where
  message : Option TgMessage
deriving DecidableEq

def emptyChat : TgChat := ⟨none⟩

def emptyUser : TgUser := ⟨none⟩

def emptyMessage : TgMessage := ⟨none, none, none⟩

/-- `str(message.get("chat", {}).get("id", ""))`. -/
def extractChatId (u : TgUpdate) : Str :=
  (((u.message.getD emptyMessage).chat.getD emptyChat).id.getD [])

/-- `str(message.get("from", {}).get("id", ""))`. -/
def extractUserId (u : TgUpdate) : Str :=
  (((u.message.getD emptyMessage).fromUser.getD emptyUser).id.getD [])

/-- `message.get("text", "")`. -/
def extractText (u : TgUpdate) : Str :=
  ((u.message.getD emptyMessage).text.getD [])

/-- The result dict of `handle_incoming_message` (wall-clock timestamp
field omitted). -/
structure ReceiveResult where
  action : Str
  chat_id : Str
  user_id : Str
  message_text : Str
  success : Bool
  context_set : Str
  reply_chat_id_locked : Str
deriving DecidableEq

/-- The result dict of `send_reply` / `send_admin_message`; Python builds
dicts with differing key sets, so keys absent from a branch are `none`. -/
structure SendResult where
  action : Str
  chat_id : Option Str
  text : Option Str
  mode : Option Str
  chat_id_locked : Option Bool
  response : Option Str
  error : Option Str
  success : Bool
deriving DecidableEq

/-- `SimpleTelegramAgent.handle_incoming_message` (lines 133-165): extracts
the channel id and text, locks the reply context onto the extracted chat id
and switches to telegram-webhook mode. -/
def handle_incoming_message (s : AgentState) (u : TgUpdate) :
    ReceiveResult × AgentState :=
  let chat_id := extractChatId u
  let user_id := extractUserId u
  let text := extractText u
  let _ := s
  (⟨str "message_received", chat_id, user_id, text, true, str "reply_mode", chat_id⟩,
   ⟨some ⟨true, some chat_id, false⟩, str "telegram_webhook"⟩)

/-- Rendering of an optional string inside an f-string (Python prints
`None` for an absent value). -/
def renderOpt (o : Option Str) : Str :=
  match o with
  | some s => s
  | none => str "None"

/-- The f-string `send_reply` hands to the agent run (line 186). -/
def replyPrompt (chat_id : Option Str) (text : Str) : Str :=
  str "Send a message to Telegram chat " ++ renderOpt chat_id ++ str ": \x27" ++
  text ++ str "\x27"

/-- `SimpleTelegramAgent.send_reply` (lines 167-211).  `runAgent` is the
opaque LLM/tool loop `self.run`.  The `reply_markup` parameter is accepted
and ignored, as in the source. -/
def send_reply (runAgent : Str → Str) (s : AgentState) (text : Str)
    (reply_markup : Option ReplyMarkup) : SendResult × AgentState :=
  let _ := reply_markup
  match s.current_context with
  | none =>
    (⟨str "reply_failed", none, none, none, none, none,
      some (str "No incoming message to reply to"), false⟩, s)
  | some ctx =>
    if ctx.is_reply_to_incoming = false then
      (⟨str "reply_failed", none, none, none, none, none,
        some (str "No incoming message to reply to"), false⟩, s)
    else
      let chat_id := ctx.incoming_chat_id
      if s.interaction_mode = str "telegram_webhook" then
        let response := runAgent (replyPrompt chat_id text)
        (⟨str "reply_sent", chat_id, some text, some (str "reply_to_incoming"),
          some true, some response, none, true⟩,
         ⟨none, str "playground"⟩)
      else
        (⟨str "text_reply", none, some text, some (str "text_only"),
          some false, some text, none, true⟩, s)

/-- The context `send_admin_message` installs for the duration of the send
(line 226): admin-initiated, not a reply, mode `explicit`. -/
def adminDuringState : AgentState := ⟨some ⟨false, none, true⟩, str "explicit"⟩

/-- The f-string `send_admin_message` hands to the agent run (line 230). -/
def adminPrompt (chat_id text : Str) : Str :=
  str "Send an admin message to Telegram chat " ++ chat_id ++ str ": \x27" ++
  text ++ str "\x27"

/-- `SimpleTelegramAgent.send_admin_message` (lines 213-245): installs the
transient admin/explicit context, performs the send, then clears the
context back to the default state. -/
def send_admin_message (runAgent : Str → Str) (s : AgentState)
    (chat_id text : Str) (reply_markup : Option ReplyMarkup) :
    SendResult × AgentState :=
  let _ := s
  let _ := reply_markup
  let s1 := adminDuringState
  let _ := s1
  let response := runAgent (adminPrompt chat_id text)
  (⟨str "admin_sent", some chat_id, some text, some (str "admin_initiated"),
    some false, some response, none, true⟩,
   ⟨none, str "playground"⟩)

/- ### TelegramOrchestrator.handle_telegram_update (lines 64-101) -/

/-- The result dict of `handle_telegram_update` (timestamp omitted). -/
structure TgHandleResult where
  operation : Str
  receive_result : ReceiveResult
  reply_result : Option SendResult
  route_decision : RouteDecision
deriving DecidableEq

/-- `TelegramOrchestrator.handle_telegram_update`: lower-cases the text,
records the inbound message (locking the reply context), routes, and —
when the decision requires a reply — sends it. -/
def handle_telegram_update (runAgent : Str → Str) (s : AgentState)
    (u : TgUpdate) : TgHandleResult × AgentState :=
  let text := pyLowerStr (extractText u)
  let rs := handle_incoming_message s u
  let route := routeMessage text
  if route.requires_reply then
    let rep := send_reply runAgent rs.2 route.reply_text route.reply_markup
    (⟨str "telegram_reply", rs.1, some rep.1, route⟩, rep.2)
  else
    (⟨str "telegram_received", rs.1, none, route⟩, rs.2)

/- ### Claim theorems about the gateway -/

/-- C1: after receiving an inbound update for channel `c`, a `reply` sends
to exactly channel `c` (the destination is the locked channel id, taken
from the context rather than from any caller argument) and resets the
context to the default state; a second `reply` without an intervening
inbound receipt fails with the no-active-channel error. -/
theorem gateway_lock_reply_then_fail (runAgent : Str → Str)
    (c t replyText : Str) (mk : Option ReplyMarkup) :
    (send_reply runAgent
        (handle_incoming_message initialAgentState ⟨some ⟨some ⟨some c⟩, none, some t⟩⟩).2
        replyText mk).1.chat_id = some c ∧
    (send_reply runAgent
        (handle_incoming_message initialAgentState ⟨some ⟨some ⟨some c⟩, none, some t⟩⟩).2
        replyText mk).1.response = some (runAgent (replyPrompt (some c) replyText)) ∧
    (send_reply runAgent
        (handle_incoming_message initialAgentState ⟨some ⟨some ⟨some c⟩, none, some t⟩⟩).2
        replyText mk).1.success = true ∧
    (send_reply runAgent
        (handle_incoming_message initialAgentState ⟨some ⟨some ⟨some c⟩, none, some t⟩⟩).2
        replyText mk).2 = initialAgentState ∧
    (send_reply runAgent
        (send_reply runAgent
          (handle_incoming_message initialAgentState ⟨some ⟨some ⟨some c⟩, none, some t⟩⟩).2
          replyText mk).2
        replyText mk).1.success = false ∧
    (send_reply runAgent
        (send_reply runAgent
          (handle_incoming_message initialAgentState ⟨some ⟨some ⟨some c⟩, none, some t⟩⟩).2
          replyText mk).2
        replyText mk).1.error = some (str "No incoming message to reply to") := by
  refine ⟨?_, ?_, ?_, ?_, ?_, ?_⟩ <;>
    simp [handle_incoming_message, send_reply, extractChatId, extractUserId,
      extractText, emptyMessage, emptyChat, emptyUser, initialAgentState, str]

/-- C4: an operator send succeeds from any prior state (in particular with
no prior inbound receipt), targets exactly the caller-chosen channel,
passes through the transient admin/`explicit` context, and afterwards the
state is the default state — the only effect on a previously locked
context is the documented transition to `explicit` during the send and
back to default after it. -/
theorem operator_send_always_succeeds (runAgent : Str → Str) (s : AgentState)
    (chat_id text : Str) (mk : Option ReplyMarkup) :
    (send_admin_message runAgent s chat_id text mk).1.success = true ∧
    (send_admin_message runAgent s chat_id text mk).1.chat_id = some chat_id ∧
    (send_admin_message runAgent s chat_id text mk).2 = initialAgentState ∧
    adminDuringState.interaction_mode = str "explicit" ∧
    adminDuringState.current_context = some ⟨false, none, true⟩ := by
  refine ⟨rfl, rfl, rfl, rfl, rfl⟩

/-- C10 (implicit): every branch of the router sets `requires_reply` to
true, so every inbound update handled by the orchestrator takes the
reply branch. -/
theorem every_update_gets_reply :
    (∀ t : Str, (routeMessage t).requires_reply = true) ∧
    (∀ (runAgent : Str → Str) (s : AgentState) (u : TgUpdate),
      (handle_telegram_update runAgent s u).1.operation = str "telegram_reply") := by
  have hreq : ∀ t : Str, (routeMessage t).requires_reply = true := by
    intro t
    unfold routeMessage
    split
    · rfl
    · split
      · rfl
      · split
        · rfl
        · split <;> rfl
  refine ⟨hreq, ?_⟩
  intro runAgent s u
  simp [handle_telegram_update, hreq]

/- ### Workflow Ledger (`AgentOrchestrator` workflow bookkeeping) -/

/-- `OrchestrationMode` enum (orchestrator.py lines 22-28). -/
inductive OrchestrationMode where
  | sequential
  | parallel
  | conditional
  | interactive
deriving DecidableEq

/-- `WorkflowStep` dataclass (lines 31-39). -/
structure WorkflowStep where
  agent_type : Str
  task_description : Str
  depends_on : Option (List Str)
  condition : Option Str
  timeout_seconds : Option Int
deriving DecidableEq

/-- A wall-clock instant with the fields `datetime` exposes to
`strftime`; the microsecond field is carried so that the id format's
precision is observable. -/
structure DateTime where
  year : Nat
  month : Nat
  day : Nat
  hour : Nat
  minute : Nat
  second : Nat
  microsecond : Nat
deriving DecidableEq

/-- `OrchestrationResult` dataclass (lines 42-53); the `results` mapping is
a key-value list. -/
structure OrchestrationResult where
  workflow_id : Str
  status : Str
  steps_completed : List Str
  steps_failed : List Str
  results : List (Str × Str)
  start_time : DateTime
  end_time : Option DateTime
  error_message : Option Str
deriving DecidableEq

/-- The in-memory run table `self.active_workflows`, a Python dict modelled
as an association list with dict insertion semantics (overwriting a key
keeps its original position, a new key is appended). -/
abbrev Ledger := List (Str × OrchestrationResult)

/-- Python dict assignment `d[k] = v`. -/
def dictInsert : Ledger → Str → OrchestrationResult → Ledger
  | [], k, v => [(k, v)]
  | (k₁, v₁) :: rest, k, v =>
    if k₁ = k then (k, v) :: rest else (k₁, v₁) :: dictInsert rest k v

/-- Python dict lookup `d.get(k)`. -/
def lookup : Ledger → Str → Option OrchestrationResult
  | [], _ => none
  | (k₁, v₁) :: rest, k => if k₁ = k then some v₁ else lookup rest k

/-- Decimal digits of a natural number. -/
def natDigits (n : Nat) : Str := Nat.toDigits 10 n

/-- Left-pad with `'0'` to a minimum width, as the zero-padded `strftime`
directives do. -/
def padZeroes (w : Nat) (s : Str) : Str := List.replicate (w - s.length) '0' ++ s

/-- `datetime.now().strftime("%Y%m%d_%H%M%S")` (line 258): second
precision; the microsecond field has no directive in this format. -/
def fmtWorkflowTs (t : DateTime) : Str :=
  padZeroes 4 (natDigits t.year) ++ padZeroes 2 (natDigits t.month) ++
  padZeroes 2 (natDigits t.day) ++ str "_" ++ padZeroes 2 (natDigits t.hour) ++
  padZeroes 2 (natDigits t.minute) ++ padZeroes 2 (natDigits t.second)

/-- `f"{workflow_name}_{datetime.now().strftime('%Y%m%d_%H%M%S')}"`. -/
def workflowId (name : Str) (now : DateTime) : Str :=
  name ++ str "_" ++ fmtWorkflowTs now

/-- The freshly created `OrchestrationResult` (lines 260-267). -/
def newRun (wid : Str) (now : DateTime) : OrchestrationResult :=
  ⟨wid, str "created", [], [], [], now, none, none⟩

/-- `AgentOrchestrator.create_workflow` (lines 244-270).  The step list and
mode are accepted but not stored, as in the source. -/
def create_workflow (l : Ledger) (workflow_name : Str)
    (steps : List WorkflowStep) (mode : OrchestrationMode) (now : DateTime) :
    Str × Ledger :=
  let _ := steps
  let _ := mode
  let wid := workflowId workflow_name now
  (wid, dictInsert l wid (newRun wid now))

/-- `AgentOrchestrator.execute_workflow` (lines 272-293): raises
`ValueError` on a missing id; otherwise marks the run running, then
(stub execution) completed with an end time. -/
def execute_workflow (l : Ledger) (wid : Str) (now : DateTime) :
    Except Str (OrchestrationResult × Ledger) :=
  match lookup l wid with
  | none => .error (str "Workflow " ++ wid ++ str " not found")
  | some w =>
    let w₁ := { w with status := str "running" }
    let w₂ := { w₁ with status := str "completed", end_time := some now }
    .ok (w₂, dictInsert l wid w₂)

/-- `AgentOrchestrator.get_workflow_status` (lines 388-398):
`self.active_workflows.get(workflow_id)`. -/
def get_workflow_status (l : Ledger) (wid : Str) : Option OrchestrationResult :=
  lookup l wid

/-- `AgentOrchestrator.list_active_workflows` (lines 400-407):
`list(self.active_workflows.values())`, i.e. insertion order. -/
def list_active_workflows (l : Ledger) : List OrchestrationResult :=
  l.map Prod.snd

/- ### Ledger lemmas -/

/-- Every stored record carries its own key as `workflow_id`. -/
def IdsConsistent (l : Ledger) : Prop := ∀ p ∈ l, (p.2).workflow_id = p.1

theorem lookup_dictInsert_self (l : Ledger) (k : Str) (v : OrchestrationResult) :
    lookup (dictInsert l k v) k = some v := by
  induction l with
  | nil => simp [dictInsert, lookup]
  | cons hd rest ih =>
    by_cases h : hd.1 = k
    · simp [dictInsert, lookup, h]
    · simp [dictInsert, lookup, h, ih]

theorem dictInsert_of_not_mem (l : Ledger) (k : Str) (v : OrchestrationResult)
    (h : k ∉ l.map Prod.fst) : dictInsert l k v = l ++ [(k, v)] := by
  induction l with
  | nil => rfl
  | cons hd rest ih =>
    simp only [List.map_cons, List.mem_cons] at h
    push_neg at h
    have hne : ¬hd.1 = k := fun hh => h.1 hh.symm
    simp [dictInsert, hne, ih h.2]

theorem countP_eq_zero_of_not_mem_keys (l : Ledger) (k : Str)
    (hc : IdsConsistent l) (h : k ∉ l.map Prod.fst) :
    (l.map Prod.snd).countP (fun r => decide (r.workflow_id = k)) = 0 := by
  rw [List.countP_eq_zero]
  intro r hr
  simp only [List.mem_map] at hr
  obtain ⟨p, hp, rfl⟩ := hr
  simp only [decide_eq_true_eq]
  intro heq
  exact h (List.mem_map.mpr ⟨p, hp, (hc p hp ▸ heq : p.1 = k) ▸ rfl⟩)

theorem countP_dictInsert_self (l : Ledger) (k : Str) (v : OrchestrationResult)
    (hk : (l.map Prod.fst).Nodup) (hc : IdsConsistent l)
    (hv : v.workflow_id = k) :
    ((dictInsert l k v).map Prod.snd).countP (fun r => decide (r.workflow_id = k)) = 1 := by
  induction l with
  | nil => simp [dictInsert, List.countP_cons, hv]
  | cons hd rest ih =>
    simp only [List.map_cons, List.nodup_cons] at hk
    have hcr : IdsConsistent rest := fun p hp => hc p (List.mem_cons_of_mem hd hp)
    by_cases h : hd.1 = k
    · have hnot : k ∉ rest.map Prod.fst := h ▸ hk.1
      simp only [dictInsert, h, if_pos]
      simp [List.countP_cons, hv, countP_eq_zero_of_not_mem_keys rest k hcr hnot]
    · have hhd : (hd.2).workflow_id = hd.1 := hc hd (List.mem_cons_self hd rest)
      simp only [dictInsert, h, if_neg, not_false_iff]
      simp [List.countP_cons, hhd, h, ih hk.2 hcr]

/- ### Claim theorems about the ledger -/

/-- C5 counterexample: the run id combines the name with a timestamp
formatted at second precision only, so two creates with the same name at
different creation times (differing in the microsecond field) yield the
same id, contradicting the claimed microsecond-or-finer uniqueness. -/
theorem workflow_id_microsecond_collision :
    (⟨2025, 1, 2, 3, 4, 5, 0⟩ : DateTime) ≠ ⟨2025, 1, 2, 3, 4, 5, 500000⟩ ∧
    (create_workflow [] (str "job") [] .sequential ⟨2025, 1, 2, 3, 4, 5, 0⟩).1 =
      (create_workflow [] (str "job") [] .sequential ⟨2025, 1, 2, 3, 4, 5, 500000⟩).1 :=
  ⟨by decide, rfl⟩

/-- C5 (amended): `create_workflow` generates the run id by combining the
name with a second-precision timestamp (`%Y%m%d_%H%M%S`): ids of creates
with the same name are distinct whenever the formatted second-precision
timestamps differ (but collide within the same second), and the created
run is stored with status `created`. -/
theorem create_workflow_id_and_created_state :
    (∀ (l : Ledger) (name : Str) (steps : List WorkflowStep)
        (mode : OrchestrationMode) (now : DateTime),
      (create_workflow l name steps mode now).1 = workflowId name now ∧
      lookup (create_workflow l name steps mode now).2 (workflowId name now) =
        some (newRun (workflowId name now) now) ∧
      (newRun (workflowId name now) now).status = str "created") ∧
    (∀ (name : Str) (t₁ t₂ : DateTime), fmtWorkflowTs t₁ ≠ fmtWorkflowTs t₂ →
      workflowId name t₁ ≠ workflowId name t₂) := by
  constructor
  · intro l name steps mode now
    exact ⟨rfl, lookup_dictInsert_self l (workflowId name now) (newRun (workflowId name now) now), rfl⟩
  · intro name t₁ t₂ hne heq
    simp only [workflowId] at heq
    exact hne (List.append_cancel_left heq)

theorem create_workflow_id_and_created_state_witness :
    workflowId (str "job") ⟨2025, 1, 2, 3, 4, 5, 0⟩ ≠
      workflowId (str "job") ⟨2025, 1, 2, 3, 4, 6, 0⟩ ∧
    lookup (create_workflow [] (str "job") [] .sequential ⟨2025, 1, 2, 3, 4, 5, 0⟩).2
        (workflowId (str "job") ⟨2025, 1, 2, 3, 4, 5, 0⟩) =
      some (newRun (workflowId (str "job") ⟨2025, 1, 2, 3, 4, 5, 0⟩) ⟨2025, 1, 2, 3, 4, 5, 0⟩) :=
  ⟨create_workflow_id_and_created_state.2 (str "job") ⟨2025, 1, 2, 3, 4, 5, 0⟩
      ⟨2025, 1, 2, 3, 4, 6, 0⟩ (by decide),
   (create_workflow_id_and_created_state.1 [] (str "job") [] .sequential
      ⟨2025, 1, 2, 3, 4, 5, 0⟩).2.1⟩

/-- C6: `execute_workflow` fails with the run-not-found error exactly when
the id is absent; on an existing run it transitions the record (through
`running`) to `completed` and sets its end time; and a status query for a
nonexistent id returns `none` rather than raising. -/
theorem execute_and_status_error_handling :
    (∀ (l : Ledger) (wid : Str) (now : DateTime), lookup l wid = none →
      execute_workflow l wid now = .error (str "Workflow " ++ wid ++ str " not found")) ∧
    (∀ (l : Ledger) (wid : Str) (now : DateTime) (w : OrchestrationResult),
      lookup l wid = some w →
      execute_workflow l wid now =
        .ok ({ w with status := str "completed", end_time := some now },
             dictInsert l wid { w with status := str "completed", end_time := some now })) ∧
    (∀ (l : Ledger) (wid : Str), lookup l wid = none →
      get_workflow_status l wid = none) := by
  refine ⟨?_, ?_, ?_⟩
  · intro l wid now h
    simp [execute_workflow, h]
  · intro l wid now w h
    simp [execute_workflow, h]
  · intro l wid h
    simp [get_workflow_status, h]

theorem execute_and_status_error_handling_witness :
    execute_workflow [] (str "w1") ⟨2025, 1, 1, 0, 0, 0, 0⟩ =
      .error (str "Workflow " ++ str "w1" ++ str " not found") ∧
    execute_workflow [(str "w1", newRun (str "w1") ⟨2025, 1, 1, 0, 0, 0, 0⟩)]
        (str "w1") ⟨2025, 1, 1, 0, 0, 7, 0⟩ =
      .ok ({ newRun (str "w1") ⟨2025, 1, 1, 0, 0, 0, 0⟩ with
               status := str "completed", end_time := some ⟨2025, 1, 1, 0, 0, 7, 0⟩ },
           dictInsert [(str "w1", newRun (str "w1") ⟨2025, 1, 1, 0, 0, 0, 0⟩)] (str "w1")
             { newRun (str "w1") ⟨2025, 1, 1, 0, 0, 0, 0⟩ with
                 status := str "completed", end_time := some ⟨2025, 1, 1, 0, 0, 7, 0⟩ }) ∧
    get_workflow_status [] (str "w1") = none :=
  ⟨execute_and_status_error_handling.1 [] (str "w1") ⟨2025, 1, 1, 0, 0, 0, 0⟩ rfl,
   execute_and_status_error_handling.2.1 [(str "w1", newRun (str "w1") ⟨2025, 1, 1, 0, 0, 0, 0⟩)]
     (str "w1") ⟨2025, 1, 1, 0, 0, 7, 0⟩ (newRun (str "w1") ⟨2025, 1, 1, 0, 0, 0, 0⟩) (by decide),
   execute_and_status_error_handling.2.2 [] (str "w1") rfl⟩

/-- C7: on a ledger whose keys are distinct and whose records carry their
own key as id (both invariants hold for every ledger the code builds), a
created run appears exactly once in `list_all`; when its id is fresh it is
appended at the end (insertion order); and immediately after creation its
completed-step and failed-step lists are both empty. -/
theorem create_then_list_roundtrip (l : Ledger) (name : Str)
    (steps : List WorkflowStep) (mode : OrchestrationMode) (now : DateTime)
    (hk : (l.map Prod.fst).Nodup) (hc : IdsConsistent l) :
    (list_active_workflows (create_workflow l name steps mode now).2).countP
      (fun r => decide (r.workflow_id = (create_workflow l name steps mode now).1)) = 1 ∧
    lookup (create_workflow l name steps mode now).2
      (create_workflow l name steps mode now).1 = some (newRun (workflowId name now) now) ∧
    (newRun (workflowId name now) now).steps_completed = [] ∧
    (newRun (workflowId name now) now).steps_failed = [] ∧
    ((create_workflow l name steps mode now).1 ∉ l.map Prod.fst →
      list_active_workflows (create_workflow l name steps mode now).2 =
        list_active_workflows l ++ [newRun (workflowId name now) now]) := by
  refine ⟨?_, ?_, rfl, rfl, ?_⟩
  · exact countP_dictInsert_self l (workflowId name now)
      (newRun (workflowId name now) now) hk hc rfl
  · exact lookup_dictInsert_self l (workflowId name now) (newRun (workflowId name now) now)
  · intro hfresh
    show list_active_workflows
        (dictInsert l (workflowId name now) (newRun (workflowId name now) now)) = _
    rw [dictInsert_of_not_mem l (workflowId name now) (newRun (workflowId name now) now) hfresh]
    simp [list_active_workflows]

theorem create_then_list_roundtrip_witness :
    (list_active_workflows
        (create_workflow [] (str "job") [] .sequential ⟨2025, 6, 1, 12, 0, 0, 0⟩).2).countP
      (fun r => decide (r.workflow_id =
        (create_workflow [] (str "job") [] .sequential ⟨2025, 6, 1, 12, 0, 0, 0⟩).1)) = 1 ∧
    (newRun (workflowId (str "job") ⟨2025, 6, 1, 12, 0, 0, 0⟩) ⟨2025, 6, 1, 12, 0, 0, 0⟩).steps_completed = [] := by
  have h := create_then_list_roundtrip [] (str "job") [] .sequential
    ⟨2025, 6, 1, 12, 0, 0, 0⟩ (by simp) (by intro p hp; exact absurd hp (List.not_mem_nil p))
  exact ⟨h.1, h.2.2.1⟩

/- ### Coordination Facade (`coordinate_masumi_search`, orchestrator.py 307-343)
and the playground adapter (`OrchestratorAgentWrapper.run`, orchestrator_wrapper.py 141-190).
Delegated capabilities are oracles `Str → Except Str Str`: `.error e`
models the capability raising an exception whose `str(e)` is `e`. -/

/-- The result dict of `coordinate_masumi_search`; keys absent from a
branch are `none`. -/
structure MasumiSearchResult where
  workflow : Str
  masumi_result : Option Str
  web_result : Option Str
  combined_result : Option Str
  error : Option Str
  success : Bool
deriving DecidableEq

/-- The except-branch dict (line 343). -/
def masumiSearchFailure (e : Str) : MasumiSearchResult :=
  ⟨str "masumi_search_failed", none, none, none, some e, false⟩

/-- The trigger phrase inspected in the previous output (line 324). -/
def triggerPhrase : Str := str "more information needed"

/-- `f"Search for agents related to: {query}"` (line 320). -/
def searchPrompt (query : Str) : Str := str "Search for agents related to: " ++ query

/-- `f"Research information about: {query}"` (line 325). -/
def researchPrompt (query : Str) : Str := str "Research information about: " ++ query

/-- The synthesis prompt combining both outputs (line 329). -/
def combinedPrompt (masumi web : Str) : Str :=
  str "Based on Masumi results: " ++ masumi ++ str "\nAnd web research: " ++ web ++
  str "\nProvide a comprehensive summary for the user."

/-- `AgentOrchestrator.coordinate_masumi_search` (lines 307-343): invoke the
marketplace capability; if its output contains the trigger phrase
(case-insensitively), invoke the web capability and then the synthesis
(team) capability on both outputs; any raised exception is caught by the
enclosing `try` and converted to the failure dict. -/
def coordinate_masumi_search (masumiRun webRun teamRun : Str → Except Str Str)
    (query : Str) : MasumiSearchResult :=
  match masumiRun (searchPrompt query) with
  | .error e => masumiSearchFailure e
  | .ok m =>
    if pyIn triggerPhrase (pyLowerStr m) then
      match webRun (researchPrompt query) with
      | .error e => masumiSearchFailure e
      | .ok w =>
        match teamRun (combinedPrompt m w) with
        | .error e => masumiSearchFailure e
        | .ok c =>
          ⟨str "masumi_with_web_research", some m, some w, some c, none, true⟩
    else
      ⟨str "masumi_only", some m, none, none, none, true⟩

/-- The user-facing merged result of a `coordinate_masumi_search` payload:
the combined output when present, otherwise the marketplace output. -/
def mergedUserResult (r : MasumiSearchResult) : Str :=
  match r.combined_result with
  | some c => c
  | none =>
    match r.masumi_result with
    | some m => m
    | none => r.error.getD []

/-- `OrchestratorAgentWrapper.run` (orchestrator_wrapper.py 141-190),
content level: delegate to the coordination object's `run`; on any
exception return the canned apologetic response embedding the error
text. (`arun` is the same logic.) -/
def wrapperRunContent (orchRun : Str → Except Str Str) (message : Str) : Str :=
  match orchRun message with
  | .ok content => content
  | .error e =>
    str "I\x27m having trouble coordinating the agents right now. Error: " ++ e

/- ### Claim theorems about the facade and adapter -/

/-- C3 counterexample: when the marketplace output lacks the trigger
phrase, the synthesis capability is not invoked at all — the payload has
no combined result and the user-facing result is the marketplace output
itself, not the synthesis capability's output (here the constant
`"SYNTH-OUTPUT"`). -/
theorem no_trigger_skips_synthesis :
    pyIn triggerPhrase (pyLowerStr (str "no agents found")) = false ∧
    (coordinate_masumi_search (fun _ => .ok (str "no agents found"))
        (fun _ => .ok (str "W")) (fun _ => .ok (str "SYNTH-OUTPUT"))
        (str "query")).combined_result = none ∧
    mergedUserResult (coordinate_masumi_search (fun _ => .ok (str "no agents found"))
        (fun _ => .ok (str "W")) (fun _ => .ok (str "SYNTH-OUTPUT"))
        (str "query")) ≠ str "SYNTH-OUTPUT" :=
  ⟨by decide, by decide, by decide⟩

/-- C3 (amended): if the first capability's output does not contain the
trigger phrase, neither the web capability nor the synthesis capability is
invoked (the result is independent of both oracles) and the result is the
marketplace output alone; if it does contain the trigger phrase, the web
capability is invoked and the synthesis capability's input contains both
prior outputs. -/
theorem sequential_invoke_trigger_gating :
    (∀ (m w w' t t' : Str → Except Str Str) (q a : Str),
      m (searchPrompt q) = .ok a → pyIn triggerPhrase (pyLowerStr a) = false →
      coordinate_masumi_search m w t q =
        ⟨str "masumi_only", some a, none, none, none, true⟩ ∧
      coordinate_masumi_search m w t q = coordinate_masumi_search m w' t' q) ∧
    (∀ (m w t : Str → Except Str Str) (q a b c : Str),
      m (searchPrompt q) = .ok a → pyIn triggerPhrase (pyLowerStr a) = true →
      w (researchPrompt q) = .ok b → t (combinedPrompt a b) = .ok c →
      coordinate_masumi_search m w t q =
        ⟨str "masumi_with_web_research", some a, some b, some c, none, true⟩ ∧
      a <:+: combinedPrompt a b ∧ b <:+: combinedPrompt a b) := by
  constructor
  · intro m w w' t t' q a hm htr
    constructor <;> simp [coordinate_masumi_search, hm, htr]
  · intro m w t q a b c hm htr hw ht
    refine ⟨by simp [coordinate_masumi_search, hm, htr, hw, ht], ?_, ?_⟩
    · exact ⟨str "Based on Masumi results: ",
        str "\nAnd web research: " ++ b ++ str "\nProvide a comprehensive summary for the user.",
        by simp [combinedPrompt]⟩
    · exact ⟨str "Based on Masumi results: " ++ a ++ str "\nAnd web research: ",
        str "\nProvide a comprehensive summary for the user.",
        by simp [combinedPrompt]⟩

theorem sequential_invoke_trigger_gating_witness :
    coordinate_masumi_search (fun _ => .ok (str "nothing here"))
        (fun _ => .ok (str "B1")) (fun _ => .ok (str "C1")) (str "q") =
      ⟨str "masumi_only", some (str "nothing here"), none, none, none, true⟩ ∧
    coordinate_masumi_search (fun _ => .ok (str "More Information Needed please"))
        (fun _ => .ok (str "B1")) (fun _ => .ok (str "C1")) (str "q") =
      ⟨str "masumi_with_web_research", some (str "More Information Needed please"),
        some (str "B1"), some (str "C1"), none, true⟩ :=
  ⟨(sequential_invoke_trigger_gating.1 (fun _ => .ok (str "nothing here"))
      (fun _ => .ok (str "B1")) (fun _ => .ok (str "B1"))
      (fun _ => .ok (str "C1")) (fun _ => .ok (str "C1")) (str "q")
      (str "nothing here") rfl (by decide)).1,
   (sequential_invoke_trigger_gating.2 (fun _ => .ok (str "More Information Needed please"))
      (fun _ => .ok (str "B1")) (fun _ => .ok (str "C1")) (str "q")
      (str "More Information Needed please") (str "B1") (str "C1")
      rfl (by decide) rfl rfl).1⟩

/-- C8: any exception raised by a delegated capability is caught: the
adapter returns the canned apologetic response embedding the error text,
and the coordination facade returns the failure dict embedding the error
text — in every case the embedding functions return an ordinary value
(the result type is not exception-carrying), so nothing propagates. -/
theorem exceptions_never_propagate :
    (∀ (orchRun : Str → Except Str Str) (message e : Str),
      orchRun message = .error e →
      wrapperRunContent orchRun message =
        str "I\x27m having trouble coordinating the agents right now. Error: " ++ e ∧
      e <:+: wrapperRunContent orchRun message) ∧
    (∀ (m w t : Str → Except Str Str) (q e : Str),
      m (searchPrompt q) = .error e →
      coordinate_masumi_search m w t q = masumiSearchFailure e) ∧
    (∀ (m w t : Str → Except Str Str) (q a e : Str),
      m (searchPrompt q) = .ok a → pyIn triggerPhrase (pyLowerStr a) = true →
      w (researchPrompt q) = .error e →
      coordinate_masumi_search m w t q = masumiSearchFailure e) ∧
    (∀ (m w t : Str → Except Str Str) (q a b e : Str),
      m (searchPrompt q) = .ok a → pyIn triggerPhrase (pyLowerStr a) = true →
      w (researchPrompt q) = .ok b → t (combinedPrompt a b) = .error e →
      coordinate_masumi_search m w t q = masumiSearchFailure e) ∧
    (∀ (m w t : Str → Except Str Str) (q : Str),
      (coordinate_masumi_search m w t q).success = true ∨
      (coordinate_masumi_search m w t q).workflow = str "masumi_search_failed") := by
  refine ⟨?_, ?_, ?_, ?_, ?_⟩
  · intro orchRun message e h
    refine ⟨by simp [wrapperRunContent, h], ?_⟩
    exact ⟨str "I\x27m having trouble coordinating the agents right now. Error: ", [],
      by simp [wrapperRunContent, h]⟩
  · intro m w t q e h
    simp [coordinate_masumi_search, h]
  · intro m w t q a e hm htr hw
    simp [coordinate_masumi_search, hm, htr, hw]
  · intro m w t q a b e hm htr hw ht
    simp [coordinate_masumi_search, hm, htr, hw, ht]
  · intro m w t q
    unfold coordinate_masumi_search
    rcases m (searchPrompt q) with e | a
    · right; rfl
    · simp only
      split
      · rcases w (researchPrompt q) with e | b
        · right; rfl
        · simp only
          rcases t (combinedPrompt a b) with e | c
          · right; rfl
          · left; rfl
      · left; rfl

theorem exceptions_never_propagate_witness :
    wrapperRunContent (fun _ => .error (str "boom")) (str "hello") =
      str "I\x27m having trouble coordinating the agents right now. Error: " ++ str "boom" ∧
    coordinate_masumi_search (fun _ => .error (str "down"))
        (fun _ => .ok (str "W")) (fun _ => .ok (str "C")) (str "q") =
      masumiSearchFailure (str "down") :=
  ⟨(exceptions_never_propagate.1 (fun _ => .error (str "boom")) (str "hello")
      (str "boom") rfl).1,
   exceptions_never_propagate.2.1 (fun _ => .error (str "down"))
      (fun _ => .ok (str "W")) (fun _ => .ok (str "C")) (str "q") (str "down") rfl⟩
